import Mathlib

/-!
Verification of `service_config_manager.py`: a layered configuration
resolver (`ServiceConfigManager`) that merges hardcoded defaults, a
global tier keyed by the sentinel key, and a dataset-specific tier,
with an in-memory cache keyed by dataset id.

Python dictionaries are embedded as association lists (`Dict K V`); the
`get?`, `setItem`, `update`, `delItem` and `contains` operations mirror
the Python dict operations used by the source.  The external store
(`dl.datasets.get` → project → binaries dataset metadata) is a
collaborator and is embedded as a `fetch` function parameter returning
either the raw nested config mapping or an error.  State mutation is
embedded as explicit state passing: each operation returns the updated
manager, and the loaders also return the number of store fetches they
performed (0 or 1) so that caching behaviour is observable.
-/

/-- Association-list embedding of a Python `dict`. -/
abbrev Dict (K : Type) (V : Type) := List (K × V)

namespace Dict

/-- `d.get(k)` / `d[k]`: the value bound to `k`, if any (first binding wins;
Python dicts have unique keys, so on well-formed dicts this is the binding). -/
def get? {K V : Type} [DecidableEq K] : Dict K V → K → Option V
  | [], _ => none
  | (k', v) :: rest, k => if k' = k then some v else get? rest k

/-- `k in d`. -/
def contains {K V : Type} [DecidableEq K] (d : Dict K V) (k : K) : Bool :=
  (d.get? k).isSome

/-- `d[k] = v`: replace the binding of `k` if present, else append it
(Python dicts keep insertion order and update values in place). -/
def setItem {K V : Type} [DecidableEq K] : Dict K V → K → V → Dict K V
  | [], k, v => [(k, v)]
  | (k', v') :: rest, k, v =>
    if k' = k then (k', v) :: rest else (k', v') :: setItem rest k v

/-- `d.update(other)`: set each binding of `other` into `d`, in order. -/
def update {K V : Type} [DecidableEq K] (d other : Dict K V) : Dict K V :=
  other.foldl (fun acc kv => acc.setItem kv.1 kv.2) d

/-- `del d[k]`: remove the binding of `k` (on well-formed dicts there is at
most one). -/
def delItem {K V : Type} [DecidableEq K] (d : Dict K V) (k : K) : Dict K V :=
  d.filter (fun kv => decide (kv.1 ≠ k))

/-- Well-formedness of a dict embedding: keys are pairwise distinct, as in a
Python dict. -/
def NodupKeys {K V : Type} (d : Dict K V) : Prop := (d.map Prod.fst).Nodup

instance {K V : Type} [DecidableEq K] (d : Dict K V) : Decidable (NodupKeys d) := by
  unfold NodupKeys; infer_instance

end Dict

/-- A configuration value (the JSON-ish values appearing in the examples). -/
inductive Value where
  | int (n : Int)
  | str (s : String)
deriving DecidableEq

/-- Errors raised by the external store (e.g. `NotFoundError` from
`dl.datasets.get`). -/
inductive StoreError where
  | notFound
deriving DecidableEq

/-- The raw nested config mapping stored in the binaries dataset metadata
under the service-configs key: service name → entity key → settings. -/
abbrev RawConfig (V : Type) := Dict String (Dict String (Dict String V))

/-- `GLOBAL_KEY = "*"`. -/
def GLOBAL_KEY : String := "*"

/-- The state of a `ServiceConfigManager` instance: `service_name`,
`defaults`, and the config cache keyed by dataset id.  The cache key type is
`Option String` because `get_config` accepts `dataset_id=None` and Python
would then use `None` as the dict key. -/
structure ServiceConfigManager (V : Type) where
  service_name : String
  defaults : Dict String V
  config_cache : Dict (Option String) (Dict String V)
deriving DecidableEq

/-- `__init__(service_name, defaults=None)`: `defaults or {}` and an empty
cache. -/
def ServiceConfigManager.init {V : Type} (service_name : String)
    (defaults : Option (Dict String V)) : ServiceConfigManager V :=
  { service_name := service_name, defaults := defaults.getD [], config_cache := [] }

/-- Python truthiness of an optional string: `None` and `""` are falsy. -/
def truthy : Option String → Bool
  | none => false
  | some s => !(s = "")

namespace ServiceConfigManager

/-- `_resolve_config(service_config, dataset_id)`: start from a copy of
`defaults`, overlay the global tier, then overlay the dataset-specific tier
when `dataset_id` is truthy and is a key of `service_config`. -/
def resolve_config {V : Type} (m : ServiceConfigManager V)
    (service_config : Dict String (Dict String V))
    (dataset_id : Option String) : Dict String V :=
  let resolved := m.defaults
  let global_config := (service_config.get? GLOBAL_KEY).getD []
  let resolved := resolved.update global_config
  if truthy dataset_id && service_config.contains (dataset_id.getD "") then
    let dataset_specific_config := (service_config.get? (dataset_id.getD "")).getD []
    resolved.update dataset_specific_config
  else
    resolved

/-- `_load_dataset_config(dataset_id)`: return the cached entry when present;
otherwise fetch the raw config from the store (propagating any store error
and leaving the state unchanged), extract the service section (missing →
empty), resolve, cache and return.  The third component counts store
fetches performed by the call. -/
def load_dataset_config {V E : Type} (fetch : Option String → Except E (RawConfig V))
    (m : ServiceConfigManager V) (dataset_id : Option String) :
    Except E (Dict String V) × ServiceConfigManager V × Nat :=
  match m.config_cache.get? dataset_id with
  | some cached => (.ok cached, m, 0)
  | none =>
    match fetch dataset_id with
    | .error e => (.error e, m, 1)
    | .ok full_config =>
      let service_config := (full_config.get? m.service_name).getD []
      let dataset_config := m.resolve_config service_config dataset_id
      (.ok dataset_config,
       { m with config_cache := m.config_cache.setItem dataset_id dataset_config },
       1)

/-- `get_config(dataset_id)` simply delegates to `_load_dataset_config`. -/
def get_config {V E : Type} (fetch : Option String → Except E (RawConfig V))
    (m : ServiceConfigManager V) (dataset_id : Option String) :
    Except E (Dict String V) × ServiceConfigManager V × Nat :=
  load_dataset_config fetch m dataset_id

/-- `clear_cache(dataset_id)`: when `dataset_id` is truthy, delete its cache
entry if present; otherwise clear the whole cache. -/
def clear_cache {V : Type} (m : ServiceConfigManager V)
    (dataset_id : Option String) : ServiceConfigManager V :=
  if truthy dataset_id then
    if m.config_cache.contains dataset_id then
      { m with config_cache := m.config_cache.delItem dataset_id }
    else
      m
  else
    { m with config_cache := [] }

/-- `reload_config(dataset_id)`: `clear_cache(dataset_id)` then
`_load_dataset_config(dataset_id)`. -/
def reload_config {V E : Type} (fetch : Option String → Except E (RawConfig V))
    (m : ServiceConfigManager V) (dataset_id : Option String) :
    Except E (Dict String V) × ServiceConfigManager V × Nat :=
  load_dataset_config fetch (m.clear_cache dataset_id) dataset_id

end ServiceConfigManager

/-- Left-biased choice on options: the lookup behaviour of a two-layer merge. -/
def pick {V : Type} (a b : Option V) : Option V :=
  match a with
  | some v => some v
  | none => b

/-- The example raw config of the spec scenario: the service section maps the
global key to quality 10 / format mp4, and dataset ds1 to quality 20. -/
def exampleRaw : RawConfig Value :=
  [("webm-converter",
    [(GLOBAL_KEY, [("quality", Value.int 10), ("format", Value.str "mp4")]),
     ("ds1", [("quality", Value.int 20)])])]

/-- The example manager of the spec scenario: defaults quality 5, empty cache. -/
def exampleManager : ServiceConfigManager Value :=
  { service_name := "webm-converter",
    defaults := [("quality", Value.int 5)],
    config_cache := [] }

/-- A store stub always returning `exampleRaw`. -/
def exampleFetch : Option String → Except StoreError (RawConfig Value) :=
  fun _ => Except.ok exampleRaw

namespace Dict

theorem get?_setItem_self {K V : Type} [DecidableEq K] (d : Dict K V) (k : K) (v : V) :
    (d.setItem k v).get? k = some v := by
  induction d with
  | nil => simp [setItem, get?]
  | cons kv rest ih =>
    obtain ⟨k', v'⟩ := kv
    by_cases h : k' = k
    · simp [setItem, h, get?]
    · simp [setItem, h, get?, ih]

theorem get?_setItem_ne {K V : Type} [DecidableEq K] (d : Dict K V) (k q : K) (v : V)
    (hne : q ≠ k) : (d.setItem k v).get? q = d.get? q := by
  induction d with
  | nil => simp [setItem, get?, Ne.symm hne]
  | cons kv rest ih =>
    obtain ⟨k', v'⟩ := kv
    by_cases h : k' = k
    · subst h
      simp [setItem, get?, Ne.symm hne]
    · simp [setItem, h, get?, ih]

theorem update_nil {K V : Type} [DecidableEq K] (d : Dict K V) : d.update [] = d := rfl

theorem get?_eq_none_of_not_mem {K V : Type} [DecidableEq K] (d : Dict K V) (k : K)
    (h : k ∉ d.map Prod.fst) : d.get? k = none := by
  induction d with
  | nil => rfl
  | cons kv rest ih =>
    obtain ⟨k', v'⟩ := kv
    simp only [List.map_cons, List.mem_cons, not_or] at h
    simp [get?, Ne.symm h.1, ih h.2]

theorem get?_update {K V : Type} [DecidableEq K] (d e : Dict K V) (k : K)
    (he : e.NodupKeys) : (d.update e).get? k = pick (e.get? k) (d.get? k) := by
  induction e generalizing d with
  | nil => simp [update, get?, pick]
  | cons kv rest ih =>
    obtain ⟨k0, v0⟩ := kv
    have hall : (k0 :: rest.map Prod.fst).Nodup := he
    have hcons := List.nodup_cons.mp hall
    have step : d.update ((k0, v0) :: rest) = (d.setItem k0 v0).update rest := rfl
    rw [step, ih (d.setItem k0 v0) hcons.2]
    by_cases h : k0 = k
    · subst h
      rw [get?_eq_none_of_not_mem rest k0 hcons.1]
      simp [get?, pick, get?_setItem_self]
    · simp [get?, h, pick, get?_setItem_ne d k0 k v0 (fun hq => h hq.symm)]

theorem get?_delItem_self {K V : Type} [DecidableEq K] (d : Dict K V) (k : K) :
    (d.delItem k).get? k = none := by
  induction d with
  | nil => rfl
  | cons kv rest ih =>
    obtain ⟨k', v'⟩ := kv
    by_cases h : k' = k
    · simpa [delItem, List.filter_cons, h] using ih
    · simpa [delItem, List.filter_cons, h, get?] using ih

theorem get?_delItem_ne {K V : Type} [DecidableEq K] (d : Dict K V) (k q : K)
    (h : q ≠ k) : (d.delItem k).get? q = d.get? q := by
  induction d with
  | nil => rfl
  | cons kv rest ih =>
    obtain ⟨k', v'⟩ := kv
    by_cases hk : k' = k
    · subst hk
      simpa [delItem, List.filter_cons, get?, Ne.symm h] using ih
    · by_cases hq : k' = q
      · subst hq
        simp [delItem, List.filter_cons, hk, get?]
      · simpa [delItem, List.filter_cons, hk, get?, hq] using ih

end Dict

namespace ServiceConfigManager

theorem load_hit {V E : Type} (fetch : Option String → Except E (RawConfig V))
    (m : ServiceConfigManager V) (dataset_id : Option String) (v : Dict String V)
    (hc : m.config_cache.get? dataset_id = some v) :
    load_dataset_config fetch m dataset_id = (.ok v, m, 0) := by
  unfold load_dataset_config
  rw [hc]

theorem load_miss_ok {V E : Type} (fetch : Option String → Except E (RawConfig V))
    (m : ServiceConfigManager V) (dataset_id : Option String) (raw : RawConfig V)
    (hc : m.config_cache.get? dataset_id = none)
    (hf : fetch dataset_id = .ok raw) :
    load_dataset_config fetch m dataset_id =
      (.ok (m.resolve_config ((raw.get? m.service_name).getD []) dataset_id),
       { m with
          config_cache := m.config_cache.setItem dataset_id
            (m.resolve_config ((raw.get? m.service_name).getD []) dataset_id) },
       1) := by
  unfold load_dataset_config
  rw [hc, hf]

theorem load_miss_err {V E : Type} (fetch : Option String → Except E (RawConfig V))
    (m : ServiceConfigManager V) (dataset_id : Option String) (e : E)
    (hc : m.config_cache.get? dataset_id = none)
    (hf : fetch dataset_id = .error e) :
    load_dataset_config fetch m dataset_id = (.error e, m, 1) := by
  unfold load_dataset_config
  rw [hc, hf]

theorem resolve_config_get? {V : Type} (m : ServiceConfigManager V)
    (sc : Dict String (Dict String V)) (s : String) (hs : s ≠ "")
    (hg : Dict.NodupKeys ((sc.get? GLOBAL_KEY).getD []))
    (hd : Dict.NodupKeys ((sc.get? s).getD [])) (k : String) :
    (m.resolve_config sc (some s)).get? k =
      pick (((sc.get? s).getD []).get? k)
        (pick (((sc.get? GLOBAL_KEY).getD []).get? k) (m.defaults.get? k)) := by
  have ht : truthy (some s) = true := by simp [truthy, hs]
  cases hcase : sc.get? s with
  | none =>
    have hbranch : m.resolve_config sc (some s) =
        m.defaults.update ((sc.get? GLOBAL_KEY).getD []) := by
      simp [resolve_config, Dict.contains, hcase, ht]
    rw [hbranch, Dict.get?_update _ _ _ hg]
    simp [hcase, Dict.get?, pick]
  | some es =>
    have hd' : Dict.NodupKeys es := by rw [hcase] at hd; exact hd
    have hbranch : m.resolve_config sc (some s) =
        (m.defaults.update ((sc.get? GLOBAL_KEY).getD [])).update es := by
      simp [resolve_config, Dict.contains, hcase, ht]
    rw [hbranch, Dict.get?_update _ _ _ hd', Dict.get?_update _ _ _ hg]
    simp [hcase]

theorem clear_cache_truthy_get? {V : Type} (m : ServiceConfigManager V)
    (s : String) (hs : s ≠ "") (k : Option String) :
    (m.clear_cache (some s)).config_cache.get? k =
      if k = some s then none else m.config_cache.get? k := by
  have ht : truthy (some s) = true := by simp [truthy, hs]
  by_cases hcon : m.config_cache.contains (some s)
  · by_cases hk : k = some s
    · subst hk
      simp [clear_cache, ht, hcon, Dict.get?_delItem_self]
    · simp [clear_cache, ht, hcon, hk, Dict.get?_delItem_ne _ _ _ hk]
  · have hnone : m.config_cache.get? (some s) = none := by
      rcases hcase : m.config_cache.get? (some s) with _ | w
      · rfl
      · exact absurd (by simp [Dict.contains, hcase]) hcon
    by_cases hk : k = some s
    · subst hk
      simp [clear_cache, ht, hcon, hnone]
    · simp [clear_cache, ht, hcon, hk]

end ServiceConfigManager

/-- C2: with defaults quality=5 and a stored service section mapping the
global key to quality=10, format=mp4 and ds1 to quality=20, `get_config` for
ds1 returns quality=20, format=mp4, and `get_config` for ds2 returns
quality=10, format=mp4. -/
theorem claim_c2_example_scenario :
    (ServiceConfigManager.get_config exampleFetch exampleManager (some "ds1")).1 =
      Except.ok [("quality", Value.int 20), ("format", Value.str "mp4")] ∧
    (ServiceConfigManager.get_config exampleFetch exampleManager (some "ds2")).1 =
      Except.ok [("quality", Value.int 10), ("format", Value.str "mp4")] :=
  ⟨rfl, rfl⟩

/-- C3: for every defaults mapping and every entity id with no cached entry,
if the fetched raw config has no section for the resolver's service name,
`get_config` returns a mapping exactly equal to `defaults`. -/
theorem claim_c3_defaults_when_section_absent {V E : Type}
    (fetch : Option String → Except E (RawConfig V)) (m : ServiceConfigManager V)
    (dataset_id : Option String) (raw : RawConfig V)
    (hc : m.config_cache.get? dataset_id = none)
    (hf : fetch dataset_id = .ok raw)
    (hraw : raw.get? m.service_name = none) :
    (ServiceConfigManager.get_config fetch m dataset_id).1 = Except.ok m.defaults := by
  rw [ServiceConfigManager.get_config,
    ServiceConfigManager.load_miss_ok fetch m dataset_id raw hc hf]
  simp [hraw, ServiceConfigManager.resolve_config, Dict.contains, Dict.get?,
    Dict.update_nil]

/-- Witness for C3 at a concrete input: section-less raw config on the example
manager resolves to exactly the defaults. -/
theorem claim_c3_witness :
    (exampleManager.config_cache.get? (some "dsX") = none ∧
     (fun _ => (Except.ok [] : Except StoreError (RawConfig Value))) (some "dsX") =
       Except.ok ([] : RawConfig Value) ∧
     Dict.get? ([] : RawConfig Value) exampleManager.service_name = none) ∧
    (ServiceConfigManager.get_config
        (fun _ => (Except.ok [] : Except StoreError (RawConfig Value)))
        exampleManager (some "dsX")).1 = Except.ok exampleManager.defaults :=
  ⟨⟨rfl, rfl, rfl⟩,
   claim_c3_defaults_when_section_absent
     (fun _ => (Except.ok [] : Except StoreError (RawConfig Value)))
     exampleManager (some "dsX") [] rfl rfl rfl⟩

/-- C5: for every entity id with no cached entry, if the store fetch raises
then `get_config` returns that same error, performs exactly one fetch (no
retry), and leaves the manager — in particular the cache — exactly as it
was. -/
theorem claim_c5_error_propagation {V E : Type}
    (fetch : Option String → Except E (RawConfig V)) (m : ServiceConfigManager V)
    (dataset_id : Option String) (e : E)
    (hc : m.config_cache.get? dataset_id = none)
    (hf : fetch dataset_id = .error e) :
    ServiceConfigManager.get_config fetch m dataset_id = (Except.error e, m, 1) :=
  ServiceConfigManager.load_miss_err fetch m dataset_id e hc hf

/-- Witness for C5 at a concrete input: a store stub raising not-found
propagates unchanged and leaves the example manager untouched. -/
theorem claim_c5_witness :
    (exampleManager.config_cache.get? (some "ds1") = none ∧
     (fun _ => (Except.error StoreError.notFound : Except StoreError (RawConfig Value)))
       (some "ds1") = Except.error StoreError.notFound) ∧
    ServiceConfigManager.get_config
        (fun _ => (Except.error StoreError.notFound : Except StoreError (RawConfig Value)))
        exampleManager (some "ds1") =
      (Except.error StoreError.notFound, exampleManager, 1) :=
  ⟨⟨rfl, rfl⟩,
   claim_c5_error_propagation
     (fun _ => (Except.error StoreError.notFound : Except StoreError (RawConfig Value)))
     exampleManager (some "ds1") StoreError.notFound rfl rfl⟩

/-- C9: an empty-string entity id is treated as absent, not as a key: the
entity-specific tier is never applied for dataset id equal to the empty
string, even when the empty string is literally a key of the section, and
clearing the cache with the empty string clears the entire cache. -/
theorem claim_c9_empty_string_treated_as_absent {V : Type}
    (m : ServiceConfigManager V) (sc : Dict String (Dict String V)) :
    m.resolve_config sc (some "") = m.resolve_config sc none ∧
    m.resolve_config sc (some "") = m.defaults.update ((sc.get? GLOBAL_KEY).getD []) ∧
    (m.clear_cache (some "")).config_cache = [] :=
  ⟨rfl, rfl, rfl⟩

/-- C1: for every defaults mapping, service section and provided (nonempty)
entity id, the config resolved by `get_config` maps each setting-name to the
entity-specific value when the entity id is a key of the service section and
carries that setting, otherwise to the global tier's value when present,
otherwise to the defaults value; a key absent from all three tiers is absent
from the result. -/
theorem claim_c1_three_tier_resolution {V E : Type}
    (fetch : Option String → Except E (RawConfig V)) (m : ServiceConfigManager V)
    (s : String) (raw : RawConfig V) (k : String)
    (hs : s ≠ "")
    (hc : m.config_cache.get? (some s) = none)
    (hf : fetch (some s) = .ok raw)
    (hg : Dict.NodupKeys ((((raw.get? m.service_name).getD []).get? GLOBAL_KEY).getD []))
    (hd : Dict.NodupKeys ((((raw.get? m.service_name).getD []).get? s).getD [])) :
    ∃ res m',
      ServiceConfigManager.get_config fetch m (some s) = (Except.ok res, m', 1) ∧
      res.get? k =
        pick (((((raw.get? m.service_name).getD []).get? s).getD []).get? k)
          (pick (((((raw.get? m.service_name).getD []).get? GLOBAL_KEY).getD []).get? k)
            (m.defaults.get? k)) :=
  ⟨m.resolve_config ((raw.get? m.service_name).getD []) (some s),
   { m with
      config_cache := m.config_cache.setItem (some s)
        (m.resolve_config ((raw.get? m.service_name).getD []) (some s)) },
   ServiceConfigManager.load_miss_ok fetch m (some s) raw hc hf,
   ServiceConfigManager.resolve_config_get? m ((raw.get? m.service_name).getD []) s hs hg hd k⟩

/-- Witness for C1 at the spec's example input: resolving ds1 yields the
entity-specific quality value. -/
theorem claim_c1_witness :
    ("ds1" ≠ "" ∧
     exampleManager.config_cache.get? (some "ds1") = none ∧
     exampleFetch (some "ds1") = Except.ok exampleRaw ∧
     Dict.NodupKeys ((((exampleRaw.get? exampleManager.service_name).getD []).get?
       GLOBAL_KEY).getD []) ∧
     Dict.NodupKeys ((((exampleRaw.get? exampleManager.service_name).getD []).get?
       "ds1").getD [])) ∧
    (∃ res m',
      ServiceConfigManager.get_config exampleFetch exampleManager (some "ds1") =
        (Except.ok res, m', 1) ∧
      res.get? "quality" =
        pick (((((exampleRaw.get? exampleManager.service_name).getD []).get?
            "ds1").getD []).get? "quality")
          (pick (((((exampleRaw.get? exampleManager.service_name).getD []).get?
              GLOBAL_KEY).getD []).get? "quality")
            (exampleManager.defaults.get? "quality"))) :=
  ⟨⟨by decide, rfl, rfl, by decide, by decide⟩,
   claim_c1_three_tier_resolution exampleFetch exampleManager "ds1" exampleRaw
     "quality" (by decide) rfl rfl (by decide) (by decide)⟩

/-- C4: a cache hit returns the cached value with no store fetch and no
re-merge; hence after any successful `get_config`, a second call — even
against a different store — returns the same result and performs no fetch. -/
theorem claim_c4_cache_hit_and_idempotence {V E : Type}
    (fetch fetch2 : Option String → Except E (RawConfig V))
    (m : ServiceConfigManager V) (dataset_id : Option String) :
    (∀ v, m.config_cache.get? dataset_id = some v →
      ServiceConfigManager.get_config fetch m dataset_id = (Except.ok v, m, 0)) ∧
    (∀ r m' n, ServiceConfigManager.get_config fetch m dataset_id = (Except.ok r, m', n) →
      ServiceConfigManager.get_config fetch2 m' dataset_id = (Except.ok r, m', 0)) := by
  constructor
  · intro v hv
    exact ServiceConfigManager.load_hit fetch m dataset_id v hv
  · intro r m' n h1
    rcases hcase : m.config_cache.get? dataset_id with _ | v
    · rcases hfetch : fetch dataset_id with e | raw
      · rw [ServiceConfigManager.get_config,
          ServiceConfigManager.load_miss_err fetch m dataset_id e hcase hfetch] at h1
        simp at h1
      · rw [ServiceConfigManager.get_config,
          ServiceConfigManager.load_miss_ok fetch m dataset_id raw hcase hfetch] at h1
        simp only [Prod.mk.injEq, Except.ok.injEq] at h1
        obtain ⟨hr, hm, hn⟩ := h1
        subst hm
        subst hr
        exact ServiceConfigManager.load_hit fetch2 _ dataset_id _
          (Dict.get?_setItem_self m.config_cache dataset_id _)
    · rw [ServiceConfigManager.get_config,
        ServiceConfigManager.load_hit fetch m dataset_id v hcase] at h1
      simp only [Prod.mk.injEq, Except.ok.injEq] at h1
      obtain ⟨hr, hm, hn⟩ := h1
      subst hm
      subst hr
      exact ServiceConfigManager.load_hit fetch2 m dataset_id v hcase

/-- Witness for C4 at concrete inputs: a pre-populated cache entry is
returned as-is with no fetch, and a second call after a cache miss is a
fetch-free hit on the freshly cached result. -/
theorem claim_c4_witness :
    ServiceConfigManager.get_config exampleFetch
        ({ service_name := "webm-converter",
           defaults := [("quality", Value.int 5)],
           config_cache := [(some "ds1", [("quality", Value.int 7)])] } :
          ServiceConfigManager Value) (some "ds1") =
      (Except.ok [("quality", Value.int 7)],
       { service_name := "webm-converter",
         defaults := [("quality", Value.int 5)],
         config_cache := [(some "ds1", [("quality", Value.int 7)])] },
       0) ∧
    ServiceConfigManager.get_config exampleFetch
        ({ service_name := "webm-converter",
           defaults := [("quality", Value.int 5)],
           config_cache :=
             [(some "ds1", [("quality", Value.int 20), ("format", Value.str "mp4")])] } :
          ServiceConfigManager Value) (some "ds1") =
      (Except.ok [("quality", Value.int 20), ("format", Value.str "mp4")],
       { service_name := "webm-converter",
         defaults := [("quality", Value.int 5)],
         config_cache :=
           [(some "ds1", [("quality", Value.int 20), ("format", Value.str "mp4")])] },
       0) :=
  ⟨(claim_c4_cache_hit_and_idempotence exampleFetch exampleFetch _ (some "ds1")).1
     [("quality", Value.int 7)] rfl,
   (claim_c4_cache_hit_and_idempotence exampleFetch exampleFetch exampleManager
     (some "ds1")).2 [("quality", Value.int 20), ("format", Value.str "mp4")] _ 1 rfl⟩

/-- Clearing the cache never changes the manager's defaults. -/
theorem clear_cache_defaults {V : Type} (m : ServiceConfigManager V)
    (dataset_id : Option String) :
    (m.clear_cache dataset_id).defaults = m.defaults := by
  unfold ServiceConfigManager.clear_cache
  split
  · split <;> rfl
  · rfl

/-- Clearing the cache never changes the manager's service name. -/
theorem clear_cache_service_name {V : Type} (m : ServiceConfigManager V)
    (dataset_id : Option String) :
    (m.clear_cache dataset_id).service_name = m.service_name := by
  unfold ServiceConfigManager.clear_cache
  split
  · split <;> rfl
  · rfl

/-- C6: after a cache miss with a successful fetch, `get_config` raises no
error regardless of which tiers exist, and each missing piece — the service
section, the global tier, the entity-specific tier — is treated as an empty
mapping while merging proceeds over the remaining tiers. -/
theorem claim_c6_missing_tiers_are_empty {V E : Type}
    (fetch : Option String → Except E (RawConfig V)) (m : ServiceConfigManager V)
    (dataset_id : Option String) (raw : RawConfig V)
    (hc : m.config_cache.get? dataset_id = none)
    (hf : fetch dataset_id = .ok raw) :
    ∃ res m',
      ServiceConfigManager.get_config fetch m dataset_id = (Except.ok res, m', 1) ∧
      (raw.get? m.service_name = none → res = m.defaults) ∧
      (((raw.get? m.service_name).getD []).get? GLOBAL_KEY = none →
        res =
          if truthy dataset_id &&
              ((raw.get? m.service_name).getD []).contains (dataset_id.getD "") then
            m.defaults.update
              ((((raw.get? m.service_name).getD []).get? (dataset_id.getD "")).getD [])
          else
            m.defaults) ∧
      ((truthy dataset_id &&
          ((raw.get? m.service_name).getD []).contains (dataset_id.getD "")) = false →
        res = m.defaults.update ((((raw.get? m.service_name).getD []).get? GLOBAL_KEY).getD [])) := by
  refine ⟨m.resolve_config ((raw.get? m.service_name).getD []) dataset_id,
    { m with
       config_cache := m.config_cache.setItem dataset_id
         (m.resolve_config ((raw.get? m.service_name).getD []) dataset_id) },
    ServiceConfigManager.load_miss_ok fetch m dataset_id raw hc hf, ?_, ?_, ?_⟩
  · intro hraw
    simp [hraw, ServiceConfigManager.resolve_config, Dict.contains, Dict.get?,
      Dict.update_nil]
  · intro hglob
    simp [ServiceConfigManager.resolve_config, hglob, Dict.update_nil]
  · intro hcond
    simp [ServiceConfigManager.resolve_config, hcond]

/-- Witness for C6 at a concrete input: a raw config with no section for the
service resolves without error to the defaults. -/
theorem claim_c6_witness :
    (exampleManager.config_cache.get? (some "ds9") = none ∧
     (fun _ => (Except.ok [] : Except StoreError (RawConfig Value))) (some "ds9") =
       Except.ok ([] : RawConfig Value)) ∧
    (∃ res m',
      ServiceConfigManager.get_config
          (fun _ => (Except.ok [] : Except StoreError (RawConfig Value)))
          exampleManager (some "ds9") = (Except.ok res, m', 1) ∧
      (Dict.get? ([] : RawConfig Value) exampleManager.service_name = none →
        res = exampleManager.defaults) ∧
      ((Dict.get? ((Dict.get? ([] : RawConfig Value) exampleManager.service_name).getD [])
          GLOBAL_KEY) = none →
        res =
          if truthy (some "ds9") &&
              Dict.contains ((Dict.get? ([] : RawConfig Value) exampleManager.service_name).getD [])
                ((some "ds9").getD "") then
            exampleManager.defaults.update
              ((Dict.get? ((Dict.get? ([] : RawConfig Value) exampleManager.service_name).getD [])
                 ((some "ds9").getD "")).getD [])
          else
            exampleManager.defaults) ∧
      ((truthy (some "ds9") &&
          Dict.contains ((Dict.get? ([] : RawConfig Value) exampleManager.service_name).getD [])
            ((some "ds9").getD "")) = false →
        res = exampleManager.defaults.update
          ((Dict.get? ((Dict.get? ([] : RawConfig Value) exampleManager.service_name).getD [])
             GLOBAL_KEY).getD []))) :=
  ⟨⟨rfl, rfl⟩,
   claim_c6_missing_tiers_are_empty
     (fun _ => (Except.ok [] : Except StoreError (RawConfig Value)))
     exampleManager (some "ds9") [] rfl rfl⟩

/-- C7: for every cache state and nonempty entity id, `clear_cache` removes
at most that one entry — its entry is gone afterwards (no error when it was
absent) and every other id's entry is unchanged — while `clear_cache` with no
argument removes all entries. -/
theorem claim_c7_clear_cache_frame {V : Type} (m : ServiceConfigManager V)
    (s : String) (hs : s ≠ "") :
    (m.clear_cache (some s)).config_cache.get? (some s) = none ∧
    (∀ k, k ≠ some s →
      (m.clear_cache (some s)).config_cache.get? k = m.config_cache.get? k) ∧
    (m.clear_cache none).config_cache = [] := by
  refine ⟨?_, ?_, rfl⟩
  · rw [ServiceConfigManager.clear_cache_truthy_get? m s hs]
    simp
  · intro k hk
    rw [ServiceConfigManager.clear_cache_truthy_get? m s hs]
    simp [hk]

/-- Witness for C7 at a concrete input: clearing ds1 removes its entry and
keeps ds2's entry. -/
theorem claim_c7_witness :
    (("ds1" : String) ≠ "") ∧
    (ServiceConfigManager.clear_cache
        ({ service_name := "webm-converter",
           defaults := [],
           config_cache :=
             [(some "ds1", [("quality", Value.int 7)]),
              (some "ds2", [("quality", Value.int 8)])] } :
          ServiceConfigManager Value) (some "ds1")).config_cache.get? (some "ds1") =
      none ∧
    (∀ k, k ≠ some "ds1" →
      (ServiceConfigManager.clear_cache
          ({ service_name := "webm-converter",
             defaults := [],
             config_cache :=
               [(some "ds1", [("quality", Value.int 7)]),
                (some "ds2", [("quality", Value.int 8)])] } :
            ServiceConfigManager Value) (some "ds1")).config_cache.get? k =
        Dict.get?
          [(some "ds1", [("quality", Value.int 7)]),
           (some "ds2", [("quality", Value.int 8)])] k) ∧
    (ServiceConfigManager.clear_cache
        ({ service_name := "webm-converter",
           defaults := [],
           config_cache :=
             [(some "ds1", [("quality", Value.int 7)]),
              (some "ds2", [("quality", Value.int 8)])] } :
          ServiceConfigManager Value) none).config_cache = [] := by
  have h := claim_c7_clear_cache_frame
    ({ service_name := "webm-converter",
       defaults := [],
       config_cache :=
         [(some "ds1", [("quality", Value.int 7)]),
          (some "ds2", [("quality", Value.int 8)])] } :
      ServiceConfigManager Value) "ds1" (by decide)
  exact ⟨by decide, h.1, h.2.1, h.2.2⟩

/-- C8: for every cache state and nonempty entity id, `reload_config` equals
`clear_cache` followed by `get_config`: it returns a freshly fetched and
merged result (one store fetch, discarding any cached value for that id) and
leaves every other id's cache entry untouched. -/
theorem claim_c8_reload_is_clear_then_get {V E : Type}
    (fetch : Option String → Except E (RawConfig V)) (m : ServiceConfigManager V)
    (s : String) (raw : RawConfig V)
    (hs : s ≠ "")
    (hf : fetch (some s) = .ok raw) :
    ServiceConfigManager.reload_config fetch m (some s) =
      ServiceConfigManager.get_config fetch (m.clear_cache (some s)) (some s) ∧
    ∃ m',
      ServiceConfigManager.reload_config fetch m (some s) =
        (Except.ok (m.resolve_config ((raw.get? m.service_name).getD []) (some s)),
         m', 1) ∧
      ∀ k, k ≠ some s → m'.config_cache.get? k = m.config_cache.get? k := by
  have hc : (m.clear_cache (some s)).config_cache.get? (some s) = none := by
    rw [ServiceConfigManager.clear_cache_truthy_get? m s hs]
    simp
  have hload :=
    ServiceConfigManager.load_miss_ok fetch (m.clear_cache (some s)) (some s) raw hc hf
  rw [clear_cache_service_name m (some s)] at hload
  have hres : (m.clear_cache (some s)).resolve_config
      ((raw.get? m.service_name).getD []) (some s) =
      m.resolve_config ((raw.get? m.service_name).getD []) (some s) := by
    simp [ServiceConfigManager.resolve_config, clear_cache_defaults m (some s)]
  rw [hres] at hload
  refine ⟨rfl, _, hload, ?_⟩
  intro k hk
  dsimp only
  rw [Dict.get?_setItem_ne _ _ _ _ hk,
    ServiceConfigManager.clear_cache_truthy_get? m s hs]
  simp [hk]

/-- Witness for C8 at a concrete input: reloading ds1 on a manager with stale
cache entries for ds1 and ds2 refetches ds1 and keeps ds2's entry. -/
theorem claim_c8_witness :
    (("ds1" : String) ≠ "") ∧
    exampleFetch (some "ds1") = Except.ok exampleRaw ∧
    (ServiceConfigManager.reload_config exampleFetch
        ({ service_name := "webm-converter",
           defaults := [("quality", Value.int 5)],
           config_cache :=
             [(some "ds1", [("quality", Value.int 999)]),
              (some "ds2", [("quality", Value.int 8)])] } :
          ServiceConfigManager Value) (some "ds1") =
      ServiceConfigManager.get_config exampleFetch
        (ServiceConfigManager.clear_cache
          ({ service_name := "webm-converter",
             defaults := [("quality", Value.int 5)],
             config_cache :=
               [(some "ds1", [("quality", Value.int 999)]),
                (some "ds2", [("quality", Value.int 8)])] } :
            ServiceConfigManager Value) (some "ds1")) (some "ds1")) ∧
    (∃ m',
      ServiceConfigManager.reload_config exampleFetch
          ({ service_name := "webm-converter",
             defaults := [("quality", Value.int 5)],
             config_cache :=
               [(some "ds1", [("quality", Value.int 999)]),
                (some "ds2", [("quality", Value.int 8)])] } :
            ServiceConfigManager Value) (some "ds1") =
        (Except.ok
          (ServiceConfigManager.resolve_config
            ({ service_name := "webm-converter",
               defaults := [("quality", Value.int 5)],
               config_cache :=
                 [(some "ds1", [("quality", Value.int 999)]),
                  (some "ds2", [("quality", Value.int 8)])] } :
              ServiceConfigManager Value)
            ((exampleRaw.get? "webm-converter").getD []) (some "ds1")),
         m', 1) ∧
      ∀ k, k ≠ some "ds1" →
        m'.config_cache.get? k =
          Dict.get?
            [(some "ds1", [("quality", Value.int 999)]),
             (some "ds2", [("quality", Value.int 8)])] k) := by
  have h := claim_c8_reload_is_clear_then_get exampleFetch
    ({ service_name := "webm-converter",
       defaults := [("quality", Value.int 5)],
       config_cache :=
         [(some "ds1", [("quality", Value.int 999)]),
          (some "ds2", [("quality", Value.int 8)])] } :
      ServiceConfigManager Value) "ds1" exampleRaw (by decide) rfl
  exact ⟨by decide, rfl, h.1, h.2⟩

/-- C10: no operation validates the entity id against the reserved sentinel:
for a dataset id equal to the global key, `get_config` raises no error, the
global entry is applied as both the global tier and the entity-specific
tier, and the result equals (as a mapping) the resolution performed with no
entity id. -/
theorem claim_c10_sentinel_entity_id {V E : Type}
    (fetch : Option String → Except E (RawConfig V)) (m : ServiceConfigManager V)
    (raw : RawConfig V)
    (hc : m.config_cache.get? (some GLOBAL_KEY) = none)
    (hf : fetch (some GLOBAL_KEY) = .ok raw)
    (hg : Dict.NodupKeys ((((raw.get? m.service_name).getD []).get? GLOBAL_KEY).getD [])) :
    ∃ res m',
      ServiceConfigManager.get_config fetch m (some GLOBAL_KEY) =
        (Except.ok res, m', 1) ∧
      res =
        (m.defaults.update
          ((((raw.get? m.service_name).getD []).get? GLOBAL_KEY).getD [])).update
          (if (((raw.get? m.service_name).getD []).get? GLOBAL_KEY).isSome then
            (((raw.get? m.service_name).getD []).get? GLOBAL_KEY).getD []
          else []) ∧
      ∀ k, res.get? k =
        (m.resolve_config ((raw.get? m.service_name).getD []) none).get? k := by
  have ht : truthy (some GLOBAL_KEY) = true := by decide
  refine ⟨m.resolve_config ((raw.get? m.service_name).getD []) (some GLOBAL_KEY),
    { m with
       config_cache := m.config_cache.setItem (some GLOBAL_KEY)
         (m.resolve_config ((raw.get? m.service_name).getD []) (some GLOBAL_KEY)) },
    ServiceConfigManager.load_miss_ok fetch m (some GLOBAL_KEY) raw hc hf, ?_, ?_⟩
  · cases hcase : Dict.get? ((raw.get? m.service_name).getD []) GLOBAL_KEY with
    | none =>
      simp [ServiceConfigManager.resolve_config, Dict.contains, hcase,
        Dict.update_nil, ht]
    | some g =>
      simp [ServiceConfigManager.resolve_config, Dict.contains, hcase, ht]
  · intro k
    cases hcase : Dict.get? ((raw.get? m.service_name).getD []) GLOBAL_KEY with
    | none =>
      simp [ServiceConfigManager.resolve_config, Dict.contains, hcase,
        Dict.update_nil, ht, truthy]
    | some g =>
      have hg' : Dict.NodupKeys g := by rw [hcase] at hg; exact hg
      have hL : m.resolve_config ((raw.get? m.service_name).getD []) (some GLOBAL_KEY) =
          (m.defaults.update g).update g := by
        simp [ServiceConfigManager.resolve_config, Dict.contains, hcase, ht]
      have hR : m.resolve_config ((raw.get? m.service_name).getD []) none =
          m.defaults.update g := by
        simp [ServiceConfigManager.resolve_config, hcase, truthy]
      rw [hL, hR, Dict.get?_update _ _ _ hg', Dict.get?_update _ _ _ hg']
      cases Dict.get? g k <;> simp [pick]

/-- Witness for C10 at a concrete input: asking the example store for
dataset id equal to the global key succeeds and matches the no-entity
resolution. -/
theorem claim_c10_witness :
    (exampleManager.config_cache.get? (some GLOBAL_KEY) = none ∧
     exampleFetch (some GLOBAL_KEY) = Except.ok exampleRaw ∧
     Dict.NodupKeys ((((exampleRaw.get? exampleManager.service_name).getD []).get?
       GLOBAL_KEY).getD [])) ∧
    (∃ res m',
      ServiceConfigManager.get_config exampleFetch exampleManager (some GLOBAL_KEY) =
        (Except.ok res, m', 1) ∧
      res =
        (exampleManager.defaults.update
          ((((exampleRaw.get? exampleManager.service_name).getD []).get?
            GLOBAL_KEY).getD [])).update
          (if (((exampleRaw.get? exampleManager.service_name).getD []).get?
              GLOBAL_KEY).isSome then
            (((exampleRaw.get? exampleManager.service_name).getD []).get?
              GLOBAL_KEY).getD []
          else []) ∧
      ∀ k, res.get? k =
        (exampleManager.resolve_config
          ((exampleRaw.get? exampleManager.service_name).getD []) none).get? k) :=
  ⟨⟨rfl, rfl, by decide⟩,
   claim_c10_sentinel_entity_id exampleFetch exampleManager exampleRaw rfl rfl
     (by decide)⟩
